import Mathlib

/-!
Shallow embedding of the alert delivery pipeline of the telehook repository
(package `internal/queue`: `alert_rules.go`, `alert_queue.go`,
`telegram_processor.go`).

Modelling conventions:
* Time is a `Nat` counting seconds (`time.Time` / `time.Duration` at second
  granularity, which is the granularity every constant in the code uses:
  a 30 s dedup window, a 60 s throttle window, `2^n` second backoffs).
  The Go zero value of `time.Time` is modelled as `0` (`IsZero`).
* Go maps are modelled as association lists with `alistLookup`/`alistInsert`.
* Mutation through pointers is modelled by explicit state passing: a Go
  method that mutates its receiver returns the updated value.
* Go channels are modelled by a `List` buffer plus a capacity; a Go
  `select` whose send case and `ctx.Done()` case are both ready chooses
  pseudo-randomly, which is modelled by an explicit `SelectPick` argument.
* External collaborators (the Telegram bot client, the database logger) are
  parameters: a `send` function stands for bot-instance creation plus
  `SendFormattedWebhookMessage`, returning `none` on success and
  `some errMsg` on failure, exactly the error/no-error split the queue code
  observes.
-/

/-- A Go `interface{}` value as far as the pipeline inspects it: the code
only ever does the type assertion `.(string)` on payload entries, so values
are either a string or something else. -/
inductive GoValue where
  | str (s : String)
  | other
deriving DecidableEq

/-- Go `map[string]interface{}` payload, as an association list. -/
def GoPayload : Type := List (String × GoValue)

instance : DecidableEq GoPayload := by
  unfold GoPayload
  infer_instance

/-- Association-list lookup (Go map read `m[k]`). -/
def alistLookup {α β : Type} [DecidableEq α] : List (α × β) → α → Option β
  | [], _ => none
  | (k, v) :: rest, key => if k = key then some v else alistLookup rest key

/-- Association-list insert/overwrite (Go map write `m[k] = v`). -/
def alistInsert {α β : Type} [DecidableEq α] : List (α × β) → α → β → List (α × β)
  | [], key, val => [(key, val)]
  | (k, v) :: rest, key, val =>
      if k = key then (key, val) :: rest else (k, v) :: alistInsert rest key val

/-- Go `alert.Payload["message"].(string)`: the `ok = true` case yields the
string, every other case (absent key, non-string value) is `ok = false`. -/
def GoPayload.message? (p : GoPayload) : Option String :=
  match alistLookup p "message" with
  | some (GoValue.str s) => some s
  | _ => none

/-- Go `Alert` (alert_queue.go): the unit of work flowing through the queue. -/
structure Alert where
  id : String
  userID : Int
  username : String
  payload : GoPayload
  priority : Int
  retries : Nat
  maxRetries : Nat
  createdAt : Nat
  scheduledAt : Nat
  botToken : String
  channelID : String
  dbChannelID : Int
deriving DecidableEq

/-- Go `DeduplicationCache` (alert_rules.go): derived key ↦ last-seen time. -/
structure DeduplicationCache where
  cache : List (String × Nat)
  window : Nat
deriving DecidableEq

/-- Go `DeduplicationCache.generateKey`: the Go code builds the string
`fmt.Sprintf("%d:%s", alert.UserID, message)` (with `message = ""` when the
payload has no string under `"message"`), hashes it with SHA-256 and keeps
the first 16 bytes in hex. The hash step is a fixed deterministic function
of this string, and no claim depends on hash collisions, so the embedding
uses the pre-image string itself as the cache key. -/
def DeduplicationCache.generateKey (alert : Alert) : String :=
  let message :=
    match alert.payload.message? with
    | some msg => msg
    | none => ""
  toString alert.userID ++ ":" ++ message

/-- Go `DeduplicationCache.IsDuplicate`: if the key was seen within the window,
report a duplicate and leave the cache untouched; otherwise record `now`
under the key and report a non-duplicate. -/
def DeduplicationCache.isDuplicate (dc : DeduplicationCache) (alert : Alert)
    (now : Nat) : Bool × DeduplicationCache :=
  let key := DeduplicationCache.generateKey alert
  match alistLookup dc.cache key with
  | some lastSeen =>
      if now - lastSeen < dc.window then
        (true, dc)
      else
        (false, { dc with cache := alistInsert dc.cache key now })
  | none => (false, { dc with cache := alistInsert dc.cache key now })

/-- Go `ThrottleCounter` (alert_rules.go): per-user fixed-window counter. -/
structure ThrottleCounter where
  count : Nat
  windowEnd : Nat
  maxPerWindow : Nat
deriving DecidableEq

/-- Go `ThrottleCounter.increment`: lazily roll the window forward when `now`
is strictly past `windowEnd` (`time.Now().After`), then allow and count the
alert only while the count is below the ceiling. -/
def ThrottleCounter.increment (tc : ThrottleCounter) (now : Nat) :
    Bool × ThrottleCounter :=
  let tc := if tc.windowEnd < now then { tc with count := 0, windowEnd := now + 60 } else tc
  if tc.maxPerWindow ≤ tc.count then
    (false, tc)
  else
    (true, { tc with count := tc.count + 1 })

/-- Go `ThrottleManager` (alert_rules.go): owner id ↦ counter. -/
structure ThrottleManager where
  counters : List (Int × ThrottleCounter)
deriving DecidableEq

/-- Go `ThrottleManager.getMaxForPriority`: per-minute ceiling by priority. -/
def ThrottleManager.getMaxForPriority (priority : Int) : Nat :=
  if priority = 1 then 100
  else if priority = 2 then 60
  else if priority = 3 then 30
  else if priority = 4 then 10
  else 30

/-- Go `ThrottleManager.AllowAlert`: lazily create the owner's counter (window
ending one minute from now, ceiling fixed from this call's priority), then
delegate to `increment`; the updated counter is stored back. -/
def ThrottleManager.allowAlert (tm : ThrottleManager) (userID priority : Int)
    (now : Nat) : Bool × ThrottleManager :=
  let counter :=
    match alistLookup tm.counters userID with
    | some c => c
    | none =>
        { count := 0
          windowEnd := now + 60
          maxPerWindow := ThrottleManager.getMaxForPriority priority }
  let r := counter.increment now
  (r.1, { counters := alistInsert tm.counters userID r.2 })

/-- Go `AlertRule` (alert_rules.go). `filterFunc = none` models a nil
`FilterFunc`. The `ThrottleWindow`/`MaxPerWindow` fields are declared in Go
but never read by the engine, so they are omitted. -/
structure AlertRule where
  name : String
  enabled : Bool
  filterFunc : Option (Alert → Bool)

/-- The custom-rule loop of `RuleEngine.ProcessAlert`: skip disabled rules
and rules with a nil predicate; the first predicate returning false rejects
with `"filtered by rule: <name>"`. -/
def applyRules (alert : Alert) : List AlertRule → Bool × String
  | [] => (true, "")
  | rule :: rest =>
      if !rule.enabled then applyRules alert rest
      else
        match rule.filterFunc with
        | some f => if !(f alert) then (false, "filtered by rule: " ++ rule.name)
                    else applyRules alert rest
        | none => applyRules alert rest

/-- Go `RuleEngine` (alert_rules.go). -/
structure RuleEngine where
  rules : List AlertRule
  deduplication : DeduplicationCache
  throttle : ThrottleManager

/-- Go `NewRuleEngine` (the background cleanup goroutine only evicts expired
entries and is outside this state-passing model). -/
def newRuleEngine (dedupeWindow : Nat) : RuleEngine :=
  { rules := []
    deduplication := { cache := [], window := dedupeWindow }
    throttle := { counters := [] } }

/-- Go `RuleEngine.AddRule`. -/
def RuleEngine.addRule (re : RuleEngine) (rule : AlertRule) : RuleEngine :=
  { re with rules := re.rules ++ [rule] }

/-- Go `RuleEngine.ProcessAlert`: deduplication, then throttling, then the
custom rules, short-circuiting on the first rejection. -/
def RuleEngine.processAlert (re : RuleEngine) (alert : Alert) (now : Nat) :
    (Bool × String) × RuleEngine :=
  let d := re.deduplication.isDuplicate alert now
  if d.1 then
    ((false, "duplicate alert filtered"), { re with deduplication := d.2 })
  else
    let t := re.throttle.allowAlert alert.userID alert.priority now
    let re' := { re with deduplication := d.2, throttle := t.2 }
    if !t.1 then
      ((false, "rate limit exceeded"), re')
    else
      (applyRules alert re.rules, re')

/-- Go `QueueStats` (alert_queue.go). The Go counters are `int64`; they only
ever increase by small deltas, far from overflow, so `Nat` is used.
`CurrentSize` is an `int` clamped at zero by `updateCurrentSize`. -/
structure QueueStats where
  processed : Nat
  failed : Nat
  retried : Nat
  batched : Nat
  currentSize : Int
deriving DecidableEq

/-- Go `QueueStats.IncrementProcessed`. -/
def QueueStats.incrementProcessed (qs : QueueStats) : QueueStats :=
  { qs with processed := qs.processed + 1 }

/-- Go `QueueStats.IncrementFailed`. -/
def QueueStats.incrementFailed (qs : QueueStats) : QueueStats :=
  { qs with failed := qs.failed + 1 }

/-- Go `QueueStats.IncrementRetried`. -/
def QueueStats.incrementRetried (qs : QueueStats) : QueueStats :=
  { qs with retried := qs.retried + 1 }

/-- Go `QueueStats.AddBatched`. -/
def QueueStats.addBatched (qs : QueueStats) (count : Nat) : QueueStats :=
  { qs with batched := qs.batched + count }

/-- Go `QueueStats.AddProcessed`. -/
def QueueStats.addProcessed (qs : QueueStats) (count : Nat) : QueueStats :=
  { qs with processed := qs.processed + count }

/-- Go `AlertQueue.updateCurrentSize`: add the delta and clamp at zero. -/
def QueueStats.updateCurrentSize (qs : QueueStats) (delta : Int) : QueueStats :=
  let cs := qs.currentSize + delta
  { qs with currentSize := if cs < 0 then 0 else cs }

/-- Go `AlertQueue` (alert_queue.go). The channels `queue` and `retryQueue`
become buffers with their construction-time capacities; `ctxDone` models
whether `cancel()` has been called on the queue's context. The worker
goroutines themselves are modelled by the step functions below. -/
structure AlertQueue where
  queue : List Alert
  queueSize : Nat
  workers : Nat
  retryQueue : List Alert
  retryCapacity : Nat
  batchSize : Nat
  ctxDone : Bool
  stats : QueueStats

/-- Go `NewAlertQueue`: main channel capacity `queueSize`, retry channel
capacity `queueSize / 2`, batch size 10 (the 5 s `batchInterval` is a
real-time quantity represented by `BatchEvent.tick` below). -/
def newAlertQueue (workers queueSize : Nat) : AlertQueue :=
  { queue := []
    queueSize := queueSize
    workers := workers
    retryQueue := []
    retryCapacity := queueSize / 2
    batchSize := 10
    ctxDone := false
    stats := { processed := 0, failed := 0, retried := 0, batched := 0, currentSize := 0 } }

/-- The defaulting prologue of `AlertQueue.Enqueue`: zero-valued fields get
`now` (timestamps), 3 (max retries), 3 = normal (priority). -/
def Alert.withDefaults (a : Alert) (now : Nat) : Alert :=
  let a := if a.createdAt = 0 then { a with createdAt := now } else a
  let a := if a.scheduledAt = 0 then { a with scheduledAt := now } else a
  let a := if a.maxRetries = 0 then { a with maxRetries := 3 } else a
  if a.priority = 0 then { a with priority := 3 } else a

/-- Which ready case a Go `select` commits to when both its channel-send
case and its `ctx.Done()` case are ready: the Go runtime chooses by uniform
pseudo-random selection, so the choice is an explicit oracle input. -/
inductive SelectPick where
  | sendCase
  | doneCase
deriving DecidableEq

/-- Go `AlertQueue.Enqueue`: apply defaults, then a non-blocking `select` over
{send to `queue`, `ctx.Done()`, `default`}. A send case is ready iff the
buffer is below capacity; the done case is ready iff cancellation has been
signaled; `default` fires only when neither is ready, returning the
"queue is full" error. On a successful send the current-size stat grows. -/
def AlertQueue.enqueue (aq : AlertQueue) (alert : Alert) (now : Nat)
    (pick : SelectPick) : Option String × AlertQueue :=
  let a := alert.withDefaults now
  let pushed : AlertQueue :=
    { aq with queue := aq.queue ++ [a], stats := aq.stats.updateCurrentSize 1 }
  let sendReady := aq.queue.length < aq.queueSize
  if sendReady ∧ aq.ctxDone then
    match pick with
    | SelectPick.sendCase => (none, pushed)
    | SelectPick.doneCase => (some "queue is shutting down", aq)
  else if sendReady then (none, pushed)
  else if aq.ctxDone then (some "queue is shutting down", aq)
  else (some "queue is full", aq)

/-- Go `AlertQueue.scheduleRetry`: increment the alert's retry count and the
retried stat, compute the backoff `1 << retries` (with the already
incremented count, i.e. `2 ^ (oldRetries + 1)`) seconds, set the scheduled
time to `now + backoff`, and offer the alert to the retry channel with a
non-blocking `select`; when that channel is full the alert is dropped.
Returns the updated queue state and the mutated alert. -/
def AlertQueue.scheduleRetry (aq : AlertQueue) (alert : Alert) (now : Nat)
    (pick : SelectPick) : AlertQueue × Alert :=
  let alert := { alert with retries := alert.retries + 1 }
  let aq := { aq with stats := aq.stats.incrementRetried }
  let backoffSeconds := 2 ^ alert.retries
  let alert := { alert with scheduledAt := now + backoffSeconds }
  let sendReady := aq.retryQueue.length < aq.retryCapacity
  if sendReady ∧ aq.ctxDone then
    match pick with
    | SelectPick.sendCase => ({ aq with retryQueue := aq.retryQueue ++ [alert] }, alert)
    | SelectPick.doneCase => (aq, alert)
  else if sendReady then ({ aq with retryQueue := aq.retryQueue ++ [alert] }, alert)
  else (aq, alert)

/-- Go `AlertQueue.processAlert` after the send attempt has completed at time
`now` (the initial sleep until `ScheduledAt` is the worker's real-time wait).
`sendErr` is whether `processor.ProcessAlert` returned a non-nil error: on
failure the failed stat grows and, while `retries < maxRetries`, a retry is
scheduled; on success the processed stat grows. Returns the updated queue
state and the (possibly mutated) alert. -/
def AlertQueue.processAlert (aq : AlertQueue) (alert : Alert) (now : Nat)
    (sendErr : Bool) (pick : SelectPick) : AlertQueue × Alert :=
  if sendErr then
    let aq := { aq with stats := aq.stats.incrementFailed }
    if alert.retries < alert.maxRetries then
      aq.scheduleRetry alert now pick
    else
      (aq, alert)
  else
    ({ aq with stats := aq.stats.incrementProcessed }, alert)

/-- The wake-up sources of the `batchProcessor` goroutine's `select`:
a receive from the batch-intake channel, a `ticker` tick (every
`batchInterval` = 5 s of real time), or a shutdown signal (either the
intake channel closing or `ctx.Done()`, which behave identically: flush
the remainder and return). -/
inductive BatchEvent where
  | intake (alerts : List Alert)
  | tick
  | shutdown

/-- One iteration of the `batchProcessor` loop, given the accumulation
buffer: returns the new buffer, the arguments of the `processBatch` calls
made (the flushes), and whether the goroutine returns. On intake the
buffer is extended and flushed when it reaches `batchSize`; on a tick a
non-empty buffer is flushed; on shutdown a non-empty remainder is flushed
and the loop exits. -/
def batchStep (batchSize : Nat) (buffer : List Alert) :
    BatchEvent → List Alert × List (List Alert) × Bool
  | BatchEvent.intake alerts =>
      let b := buffer ++ alerts
      if batchSize ≤ b.length then ([], [b], false) else (b, [], false)
  | BatchEvent.tick =>
      if buffer.isEmpty then (buffer, [], false) else ([], [buffer], false)
  | BatchEvent.shutdown =>
      if buffer.isEmpty then ([], [], true) else ([], [buffer], true)

/-- Run the `batchProcessor` loop over a sequence of wake-ups, collecting
every flush; once the loop has returned, later events are not processed. -/
def batchRun (batchSize : Nat) (buffer : List Alert) :
    List BatchEvent → List (List Alert)
  | [] => []
  | e :: rest =>
      let s := batchStep batchSize buffer e
      if s.2.2 then s.2.1 else s.2.1 ++ batchRun batchSize s.1 rest

/-- The fallback loop of `AlertQueue.processBatch`: re-submit each alert of
the failed batch, in order, through `Enqueue` (ignoring per-alert rejection
beyond logging it). -/
def AlertQueue.enqueueAll (aq : AlertQueue) (alerts : List Alert) (now : Nat)
    (pick : SelectPick) : AlertQueue :=
  alerts.foldl (fun st a => (st.enqueue a now pick).2) aq

/-- Go `AlertQueue.processBatch`: `batchErr` is whether
`processor.ProcessBatch` returned a non-nil error. On error the failed stat
grows once and every alert is re-submitted individually through `Enqueue`;
on success the batched and processed stats grow by the batch length. -/
def AlertQueue.processBatch (aq : AlertQueue) (alerts : List Alert)
    (batchErr : Bool) (now : Nat) (pick : SelectPick) : AlertQueue :=
  if batchErr then
    let aq := { aq with stats := aq.stats.incrementFailed }
    aq.enqueueAll alerts now pick
  else
    { aq with stats := (aq.stats.addBatched alerts.length).addProcessed alerts.length }

/-- The observable outcome of `TelegramProcessor.ProcessAlert`: blocked by
the rule engine (logged with status "filtered", returns nil), delivered
(logged "success", returns nil), or failed (logged "failed", returns the
error). -/
inductive ProcOutcome where
  | filtered (reason : String)
  | sent
  | errored (msg : String)
deriving DecidableEq

/-- Whether the Go return value of `TelegramProcessor.ProcessAlert` is a
non-nil error: only a send failure is; a filtered alert returns nil. -/
def ProcOutcome.isErr : ProcOutcome → Bool
  | ProcOutcome.errored _ => true
  | _ => false

/-- Go `TelegramProcessor.ProcessAlert`: run the rule engine first on every
call; a blocked alert is logged as filtered and yields nil. Otherwise the
alert is sent; `send` abstracts the external steps (per-alert bot-instance
creation in multi-channel mode, nil-bot check in legacy mode, and
`SendFormattedWebhookMessage`), returning `some errMsg` exactly when the Go
code returns a non-nil error from that region. -/
def TelegramProcessor.processAlert (re : RuleEngine) (send : Alert → Option String)
    (alert : Alert) (now : Nat) : ProcOutcome × RuleEngine :=
  let p := re.processAlert alert now
  if !p.1.1 then
    (ProcOutcome.filtered p.1.2, p.2)
  else
    match send alert with
    | some e => (ProcOutcome.errored e, p.2)
    | none => (ProcOutcome.sent, p.2)

/-- The loop of `TelegramProcessor.ProcessBatch`: process each alert with
`ProcessAlert` (threading the rule-engine state), counting successes (nil
returns) and errors. Returns (successCount, errorCount, final state). -/
def tgBatchLoop (re : RuleEngine) (send : Alert → Option String) (now : Nat) :
    List Alert → Nat → Nat → Nat × Nat × RuleEngine
  | [], successCount, errorCount => (successCount, errorCount, re)
  | alert :: rest, successCount, errorCount =>
      let p := TelegramProcessor.processAlert re send alert now
      if p.1.isErr then tgBatchLoop p.2 send now rest successCount (errorCount + 1)
      else tgBatchLoop p.2 send now rest (successCount + 1) errorCount

/-- Go `TelegramProcessor.ProcessBatch`: an empty batch returns nil at once;
otherwise every alert is processed individually and an error is returned
only when at least one alert failed and none succeeded. -/
def TelegramProcessor.processBatch (re : RuleEngine) (send : Alert → Option String)
    (alerts : List Alert) (now : Nat) : Option String × RuleEngine :=
  if alerts.isEmpty then (none, re)
  else
    let r := tgBatchLoop re send now alerts 0 0
    if 0 < r.2.1 ∧ r.1 = 0 then
      (some "all alerts in batch failed", r.2.2)
    else
      (none, r.2.2)

/-- Specification-side description used to state claim C1: the first
registered rule that is enabled, has a predicate, and whose predicate
rejects the alert. -/
def firstRejecting (alert : Alert) : List AlertRule → Option AlertRule
  | [] => none
  | r :: rest =>
      if r.enabled && (match r.filterFunc with
                       | some f => !(f alert)
                       | none => false) then some r
      else firstRejecting alert rest

/-- Repeated `ThrottleManager.AllowAlert` calls for one owner, one call per
listed timestamp, collecting the decisions (used to state claim C4's
scenario). -/
def ThrottleManager.run (tm : ThrottleManager) (userID priority : Int) :
    List Nat → List Bool × ThrottleManager
  | [] => ([], tm)
  | t :: rest =>
      let r := tm.allowAlert userID priority t
      let rs := r.2.run userID priority rest
      (r.1 :: rs.1, rs.2)

/-- A concrete alert used by witnesses and counterexamples. -/
def sampleAlert : Alert :=
  { id := "a1", userID := 7, username := "u"
    payload := [("message", GoValue.str "hi")]
    priority := 3, retries := 0, maxRetries := 3
    createdAt := 1, scheduledAt := 1
    botToken := "", channelID := "", dbChannelID := 0 }

/-- A queue whose context has been cancelled but whose channel still has
free capacity. -/
def cancelledQueue : AlertQueue := { newAlertQueue 1 4 with ctxDone := true }

/-- A queue whose work channel has no capacity at all, hence is full. -/
def fullTinyQueue : AlertQueue := newAlertQueue 1 0

/-- A rule rejecting every alert, used to exercise the custom-rule stage. -/
def rejectAllRule : AlertRule :=
  { name := "Reject All", enabled := true, filterFunc := some (fun _ => false) }

/-- A fresh engine with the single rejecting rule registered. -/
def rejectingEngine : RuleEngine := (newRuleEngine 30).addRule rejectAllRule

/-- An empty deduplication cache with the processor's 30 s window. -/
def dedupCache0 : DeduplicationCache := { cache := [], window := 30 }

/-- An alert from the same owner with a different message, so that it is
not a duplicate of `sampleAlert`. -/
def failAlert : Alert :=
  { sampleAlert with id := "fail", payload := [("message", GoValue.str "yo")] }

/-- A send collaborator failing exactly on `failAlert`. -/
def mixedSend : Alert → Option String :=
  fun a => if a.id = "fail" then some "boom" else none

/-- A send collaborator that always fails. -/
def sendFail : Alert → Option String := fun _ => some "telegram send failed"

/-- A send collaborator that always succeeds. -/
def sendOk : Alert → Option String := fun _ => none

/-- The alert `sampleAlert` as the scheduler re-submits it after one failed attempt
at time 100: one retry recorded, re-scheduled 2 seconds later. -/
def retriedSample : Alert := { sampleAlert with retries := 1, scheduledAt := 102 }

/-!  Helper lemmas about the association-list map operations. -/

theorem alistLookup_insert_self {α β : Type} [DecidableEq α]
    (l : List (α × β)) (k : α) (v : β) :
    alistLookup (alistInsert l k v) k = some v := by
  induction l with
  | nil => simp [alistInsert, alistLookup]
  | cons p rest ih =>
      obtain ⟨k', v'⟩ := p
      by_cases h : k' = k
      · simp [alistInsert, h, alistLookup]
      · simp [alistInsert, h, alistLookup, ih]

theorem alistInsert_insert_self {α β : Type} [DecidableEq α]
    (l : List (α × β)) (k : α) (v w : β) :
    alistInsert (alistInsert l k v) k w = alistInsert l k w := by
  induction l with
  | nil => simp [alistInsert]
  | cons p rest ih =>
      obtain ⟨k', v'⟩ := p
      by_cases h : k' = k
      · simp [alistInsert, h]
      · simp [alistInsert, h, ih]

/-- C8: once `retries` has reached `maxRetries`, a further delivery failure
increments the failed stat exactly once and schedules no retry: the retried
stat, the retry channel, the work queue and the alert itself are untouched,
so the alert terminates permanently failed. -/
theorem final_failure_no_retry (aq : AlertQueue) (alert : Alert) (now : Nat)
    (pick : SelectPick) (h : alert.maxRetries ≤ alert.retries) :
    (aq.processAlert alert now true pick).1.stats.failed = aq.stats.failed + 1 ∧
    (aq.processAlert alert now true pick).1.stats.retried = aq.stats.retried ∧
    (aq.processAlert alert now true pick).1.retryQueue = aq.retryQueue ∧
    (aq.processAlert alert now true pick).1.queue = aq.queue ∧
    (aq.processAlert alert now true pick).2 = alert := by
  have hlt : ¬ alert.retries < alert.maxRetries := by omega
  simp [AlertQueue.processAlert, hlt, QueueStats.incrementFailed]

theorem final_failure_no_retry_witness :
    ((newAlertQueue 2 4).processAlert { sampleAlert with retries := 3 } 10 true
        SelectPick.sendCase).1.stats.failed
      = (newAlertQueue 2 4).stats.failed + 1 :=
  (final_failure_no_retry (newAlertQueue 2 4) { sampleAlert with retries := 3 } 10
    SelectPick.sendCase (by decide)).1

/-- C2: a delivery failure with `retries < maxRetries` increments the retry
counter exactly once, sets the scheduled time to `now + 2 ^ (retries + 1)`
seconds (retries valued before the increment) — in particular at least that
far past the failure time — and, the retry channel having room and shutdown
not being signaled, pushes the updated alert onto the retry channel. -/
theorem scheduler_retry_backoff (aq : AlertQueue) (alert : Alert) (now : Nat)
    (pick : SelectPick) (h1 : alert.retries < alert.maxRetries)
    (h2 : aq.ctxDone = false) (h3 : aq.retryQueue.length < aq.retryCapacity) :
    (aq.processAlert alert now true pick).2.retries = alert.retries + 1 ∧
    (aq.processAlert alert now true pick).2.scheduledAt = now + 2 ^ (alert.retries + 1) ∧
    now + 2 ^ (alert.retries + 1) ≤ (aq.processAlert alert now true pick).2.scheduledAt ∧
    (aq.processAlert alert now true pick).1.retryQueue
      = aq.retryQueue ++ [(aq.processAlert alert now true pick).2] := by
  simp [AlertQueue.processAlert, h1, AlertQueue.scheduleRetry, h2, h3,
    QueueStats.incrementRetried, QueueStats.incrementFailed]

theorem scheduler_retry_backoff_witness :
    ((newAlertQueue 2 4).processAlert sampleAlert 10 true SelectPick.sendCase).2.scheduledAt
      = 10 + 2 ^ (sampleAlert.retries + 1) :=
  (scheduler_retry_backoff (newAlertQueue 2 4) sampleAlert 10 SelectPick.sendCase
    (by decide) (by decide) (by decide)).2.1

/-- C7: the batch size fixed at queue construction is 10; an intake that
brings the buffer to the threshold flushes the whole buffer at once even
though no timer fired; a timer tick with a non-empty buffer flushes it even
below threshold; and on shutdown a non-empty remainder is flushed exactly
once, with nothing further processed after the loop exits. -/
theorem batch_flush_policy :
    (∀ workers queueSize, (newAlertQueue workers queueSize).batchSize = 10) ∧
    (∀ (bs : Nat) (buffer alerts : List Alert),
        bs ≤ (buffer ++ alerts).length →
        batchStep bs buffer (BatchEvent.intake alerts) = ([], [buffer ++ alerts], false)) ∧
    (∀ (bs : Nat) (buffer : List Alert), buffer ≠ [] →
        batchStep bs buffer BatchEvent.tick = ([], [buffer], false)) ∧
    (∀ (bs : Nat) (buffer : List Alert) (events : List BatchEvent), buffer ≠ [] →
        batchRun bs buffer (BatchEvent.shutdown :: events) = [buffer]) := by
  refine ⟨fun w q => rfl, fun bs buffer alerts h => ?_, fun bs buffer h => ?_,
    fun bs buffer events h => ?_⟩
  · have h' : bs ≤ buffer.length + alerts.length := by simpa using h
    simp [batchStep, h']
  · cases buffer with
    | nil => exact absurd rfl h
    | cons a t => simp [batchStep]
  · cases buffer with
    | nil => exact absurd rfl h
    | cons a t => simp [batchRun, batchStep]

theorem batch_flush_policy_witness :
    batchRun 10 [sampleAlert] [BatchEvent.shutdown, BatchEvent.tick] = [[sampleAlert]] :=
  batch_flush_policy.2.2.2 10 [sampleAlert] [BatchEvent.tick] (by decide)

/-- C5 counterexample: with cancellation already signaled but the channel
below capacity, both the send case and the done case of the `select` are
ready; when the runtime's pseudo-random choice lands on the send case,
`Enqueue` places the alert and returns success instead of the claimed
"shutting down" rejection. -/
theorem enqueue_cancelled_can_succeed :
    cancelledQueue.ctxDone = true ∧
    (cancelledQueue.enqueue sampleAlert 5 SelectPick.sendCase).1 = none ∧
    (cancelledQueue.enqueue sampleAlert 5 SelectPick.sendCase).2.queue = [sampleAlert] := by
  decide

/-- C5 amended: `Enqueue` never blocks — with the channel full and no
cancellation it rejects with "queue is full"; with cancellation signaled it
rejects with "queue is shutting down" when the channel is full, and with
free capacity it nondeterministically either rejects with "queue is
shutting down" or places the alert, depending on which ready `select` case
the runtime picks; it reports success exactly when the alert was actually
placed on the channel, and on any rejection the queue is unchanged. -/
theorem enqueue_nonblocking_spec (aq : AlertQueue) (alert : Alert) (now : Nat)
    (pick : SelectPick) :
    (aq.queueSize ≤ aq.queue.length → aq.ctxDone = false →
        aq.enqueue alert now pick = (some "queue is full", aq)) ∧
    (aq.queueSize ≤ aq.queue.length → aq.ctxDone = true →
        aq.enqueue alert now pick = (some "queue is shutting down", aq)) ∧
    (aq.queue.length < aq.queueSize → aq.ctxDone = false →
        aq.enqueue alert now pick
          = (none, { aq with queue := aq.queue ++ [alert.withDefaults now],
                             stats := aq.stats.updateCurrentSize 1 })) ∧
    (aq.queue.length < aq.queueSize → aq.ctxDone = true →
        aq.enqueue alert now pick = (some "queue is shutting down", aq) ∨
        aq.enqueue alert now pick
          = (none, { aq with queue := aq.queue ++ [alert.withDefaults now],
                             stats := aq.stats.updateCurrentSize 1 })) ∧
    ((aq.enqueue alert now pick).1 = none →
        (aq.enqueue alert now pick).2.queue = aq.queue ++ [alert.withDefaults now]) ∧
    ((aq.enqueue alert now pick).1 ≠ none → (aq.enqueue alert now pick).2 = aq) := by
  refine ⟨?_, ?_, ?_, ?_, ?_, ?_⟩
  · intro hfull hdone
    have hs : ¬ aq.queue.length < aq.queueSize := by omega
    simp [AlertQueue.enqueue, hs, hdone]
  · intro hfull hdone
    have hs : ¬ aq.queue.length < aq.queueSize := by omega
    simp [AlertQueue.enqueue, hs, hdone]
  · intro hs hdone
    simp [AlertQueue.enqueue, hs, hdone]
  · intro hs hdone
    cases pick with
    | sendCase => right; simp [AlertQueue.enqueue, hs, hdone]
    | doneCase => left; simp [AlertQueue.enqueue, hs, hdone]
  · intro hnone
    by_cases hs : aq.queue.length < aq.queueSize <;> cases hdone : aq.ctxDone <;>
      cases pick <;> simp [AlertQueue.enqueue, hs, hdone] at hnone ⊢
  · intro hsome
    by_cases hs : aq.queue.length < aq.queueSize <;> cases hdone : aq.ctxDone <;>
      cases pick <;> simp [AlertQueue.enqueue, hs, hdone] at hsome ⊢

theorem enqueue_nonblocking_spec_witness :
    fullTinyQueue.enqueue sampleAlert 5 SelectPick.sendCase = (some "queue is full", fullTinyQueue) :=
  (enqueue_nonblocking_spec fullTinyQueue sampleAlert 5 SelectPick.sendCase).1
    (by decide) (by decide)

/-- The custom-rule loop returns the rejection of the first registered
enabled rule whose predicate rejects the alert, or accepts. -/
theorem applyRules_eq_firstRejecting (alert : Alert) (rules : List AlertRule) :
    applyRules alert rules =
      match firstRejecting alert rules with
      | some r => (false, "filtered by rule: " ++ r.name)
      | none => (true, "") := by
  induction rules with
  | nil => rfl
  | cons r rest ih =>
      cases he : r.enabled with
      | false => simp [applyRules, firstRejecting, he, ih]
      | true =>
          cases hf : r.filterFunc with
          | none => simp [applyRules, firstRejecting, he, hf, ih]
          | some f =>
              cases hfa : f alert with
              | false => simp [applyRules, firstRejecting, he, hf, hfa]
              | true => simp [applyRules, firstRejecting, he, hf, hfa, ih]

/-- C1: `RuleEngine.ProcessAlert` short-circuits in the order deduplication,
throttling, custom rules: a duplicate yields `(false, "duplicate alert
filtered")`; otherwise a throttle rejection yields `(false, "rate limit
exceeded")`; otherwise the first registered enabled rule whose predicate
rejects yields `(false, "filtered by rule: <name>")`, and with no rejecting
stage the alert is allowed. -/
theorem ruleEngine_processAlert_order (re : RuleEngine) (alert : Alert) (now : Nat) :
    ((re.deduplication.isDuplicate alert now).1 = true →
        (re.processAlert alert now).1 = (false, "duplicate alert filtered")) ∧
    ((re.deduplication.isDuplicate alert now).1 = false →
      (re.throttle.allowAlert alert.userID alert.priority now).1 = false →
        (re.processAlert alert now).1 = (false, "rate limit exceeded")) ∧
    ((re.deduplication.isDuplicate alert now).1 = false →
      (re.throttle.allowAlert alert.userID alert.priority now).1 = true →
        (re.processAlert alert now).1 =
          match firstRejecting alert re.rules with
          | some r => (false, "filtered by rule: " ++ r.name)
          | none => (true, "")) := by
  refine ⟨fun hd => ?_, fun hd ht => ?_, fun hd ht => ?_⟩
  · simp [RuleEngine.processAlert, hd]
  · simp [RuleEngine.processAlert, hd, ht]
  · simp [RuleEngine.processAlert, hd, ht, applyRules_eq_firstRejecting]

theorem ruleEngine_processAlert_order_witness :
    (rejectingEngine.processAlert sampleAlert 100).1
      = (false, "filtered by rule: Reject All") := by
  have h := (ruleEngine_processAlert_order rejectingEngine sampleAlert 100).2.2
    (by decide) (by decide)
  rw [h]
  rfl

/-- A non-duplicate verdict always records `now` under the alert's key. -/
theorem isDuplicate_false_cache (dc : DeduplicationCache) (a : Alert) (t : Nat)
    (h : (dc.isDuplicate a t).1 = false) :
    (dc.isDuplicate a t).2
      = { dc with cache := alistInsert dc.cache (DeduplicationCache.generateKey a) t } := by
  unfold DeduplicationCache.isDuplicate at h ⊢
  cases hl : alistLookup dc.cache (DeduplicationCache.generateKey a) with
  | none => simp [hl]
  | some lastSeen =>
      by_cases hw : t - lastSeen < dc.window
      · simp [hl, hw] at h
      · simp [hl, hw]

/-- The derived key depends only on the owner id and the message text. -/
theorem generateKey_congr (a1 a2 : Alert) (hu : a2.userID = a1.userID)
    (hm : a2.payload.message? = a1.payload.message?) :
    DeduplicationCache.generateKey a2 = DeduplicationCache.generateKey a1 := by
  simp [DeduplicationCache.generateKey, hu, hm]

/-- C3: `IsDuplicate` reports a duplicate without touching the stored
timestamp when the key was last seen within the window, and otherwise
records `now` under the key and reports a non-duplicate; consequently, for
two alerts with the same owner and identical message text, after a
non-duplicate first check at `t1` the second check reports a duplicate at
any `t2` with `t2 - t1 < window` and a non-duplicate once the window has
elapsed. -/
theorem dedup_isDuplicate_spec (dc : DeduplicationCache) (a1 a2 : Alert) (t1 t2 : Nat) :
    (∀ lastSeen,
        alistLookup dc.cache (DeduplicationCache.generateKey a1) = some lastSeen →
        t1 - lastSeen < dc.window → dc.isDuplicate a1 t1 = (true, dc)) ∧
    (∀ lastSeen,
        alistLookup dc.cache (DeduplicationCache.generateKey a1) = some lastSeen →
        ¬ (t1 - lastSeen < dc.window) →
        dc.isDuplicate a1 t1 =
          (false, { dc with
            cache := (alistInsert dc.cache (DeduplicationCache.generateKey a1) t1) })) ∧
    (alistLookup dc.cache (DeduplicationCache.generateKey a1) = none →
        dc.isDuplicate a1 t1 =
          (false, { dc with
            cache := (alistInsert dc.cache (DeduplicationCache.generateKey a1) t1) })) ∧
    (a2.userID = a1.userID → a2.payload.message? = a1.payload.message? →
      (dc.isDuplicate a1 t1).1 = false → t2 - t1 < dc.window →
        ((dc.isDuplicate a1 t1).2.isDuplicate a2 t2).1 = true) ∧
    (a2.userID = a1.userID → a2.payload.message? = a1.payload.message? →
      (dc.isDuplicate a1 t1).1 = false → ¬ (t2 - t1 < dc.window) →
        ((dc.isDuplicate a1 t1).2.isDuplicate a2 t2).1 = false) := by
  refine ⟨fun lastSeen hl hw => ?_, fun lastSeen hl hw => ?_, fun hl => ?_,
    fun hu hm h1 hw => ?_, fun hu hm h1 hw => ?_⟩
  · simp [DeduplicationCache.isDuplicate, hl, hw]
  · simp [DeduplicationCache.isDuplicate, hl, hw]
  · simp [DeduplicationCache.isDuplicate, hl]
  · rw [isDuplicate_false_cache dc a1 t1 h1]
    simp [DeduplicationCache.isDuplicate, generateKey_congr a1 a2 hu hm,
      alistLookup_insert_self, hw]
  · rw [isDuplicate_false_cache dc a1 t1 h1]
    simp [DeduplicationCache.isDuplicate, generateKey_congr a1 a2 hu hm,
      alistLookup_insert_self, hw]

theorem dedup_isDuplicate_spec_witness :
    ((dedupCache0.isDuplicate sampleAlert 100).2.isDuplicate
        { sampleAlert with id := "a2" } 110).1 = true :=
  (dedup_isDuplicate_spec dedupCache0 sampleAlert { sampleAlert with id := "a2" }
      100 110).2.2.2.1 (by decide) (by decide) (by decide) (by decide)

/-- Decisions for a run over concatenated call lists compose. -/
theorem throttleRun_append (uid prio : Int) (xs ys : List Nat) :
    ∀ tm : ThrottleManager,
      tm.run uid prio (xs ++ ys)
        = ((tm.run uid prio xs).1 ++ ((tm.run uid prio xs).2.run uid prio ys).1,
           ((tm.run uid prio xs).2.run uid prio ys).2) := by
  induction xs with
  | nil => intro tm; simp [ThrottleManager.run]
  | cons x xs ih => intro tm; simp [ThrottleManager.run, ih]

/-- While the owner's counter stays below its ceiling and every call falls
within the current window, every call is allowed and the count advances by
one per call. -/
theorem throttleRun_below_ceiling (uid prio : Int) (w M : Nat) :
    ∀ (ts : List Nat) (tm : ThrottleManager) (k : Nat),
      alistLookup tm.counters uid
        = some { count := k, windowEnd := w, maxPerWindow := M } →
      (∀ t ∈ ts, t ≤ w) →
      k + ts.length ≤ M →
      (tm.run uid prio ts).1 = List.replicate ts.length true ∧
      alistLookup (tm.run uid prio ts).2.counters uid
        = some { count := k + ts.length, windowEnd := w, maxPerWindow := M } := by
  intro ts
  induction ts with
  | nil =>
      intro tm k hlk _ _
      simpa [ThrottleManager.run] using hlk
  | cons t rest ih =>
      intro tm k hlk hts hle
      have hw : ¬ (w < t) := by
        have := hts t (by simp)
        omega
      have hc : ¬ (M ≤ k) := by
        have : rest.length + 1 = (t :: rest).length := by simp
        omega
      have hstep : tm.allowAlert uid prio t
          = (true, { counters := (alistInsert tm.counters uid
              { count := k + 1, windowEnd := w, maxPerWindow := M }) }) := by
        simp [ThrottleManager.allowAlert, hlk, ThrottleCounter.increment, hw, hc]
      have hrest := ih { counters := (alistInsert tm.counters uid
          { count := k + 1, windowEnd := w, maxPerWindow := M }) } (k + 1)
        (by simp [alistLookup_insert_self])
        (fun x hx => hts x (by simp [hx]))
        (by simp at hle ⊢; omega)
      refine ⟨?_, ?_⟩
      · simp [ThrottleManager.run, hstep, hrest.1, List.replicate_succ]
      · have := hrest.2
        simp [ThrottleManager.run, hstep]
        simpa [Nat.add_assoc, Nat.add_comm, Nat.add_left_comm] using this

/-- With the counter at its ceiling, a call inside the window is rejected
and a first call strictly past the window end is allowed again. -/
theorem throttleRun_at_ceiling (uid prio : Int) (w M : Nat) (tm : ThrottleManager)
    (tlast t' : Nat)
    (hlk : alistLookup tm.counters uid
        = some { count := M, windowEnd := w, maxPerWindow := M })
    (h1 : tlast ≤ w) (h2 : w < t') (hM : 0 < M) :
    (tm.run uid prio [tlast, t']).1 = [false, true] := by
  have hn1 : ¬ (w < tlast) := by omega
  have hnM : ¬ (M ≤ 0) := by omega
  have hstep1 : tm.allowAlert uid prio tlast
      = (false, { counters := (alistInsert tm.counters uid
          { count := M, windowEnd := w, maxPerWindow := M }) }) := by
    simp [ThrottleManager.allowAlert, hlk, ThrottleCounter.increment, hn1]
  have hstep2 :
      (ThrottleManager.mk (alistInsert tm.counters uid
          { count := M, windowEnd := w, maxPerWindow := M })).allowAlert uid prio t'
        = (true, { counters := (alistInsert (alistInsert tm.counters uid
            { count := M, windowEnd := w, maxPerWindow := M }) uid
            { count := 1, windowEnd := t' + 60, maxPerWindow := M }) }) := by
    simp [ThrottleManager.allowAlert, alistLookup_insert_self,
      ThrottleCounter.increment, h2, hnM]
  simp [ThrottleManager.run, hstep1, hstep2]

/-- C4: the priority ceilings are 100/60/30/10 per minute for priorities
1/2/3/4; a check past the window end resets the count to zero and starts a
fresh one-minute window ending sixty seconds from now, allowing iff the
ceiling is positive; a check within the window allows and counts the alert
iff the count is below the ceiling; consequently an owner's first N calls
within one window are allowed, the (N+1)-th is rejected, and a call after
the window rolls over is allowed again. -/
theorem throttle_ceiling_spec :
    (ThrottleManager.getMaxForPriority 1 = 100 ∧
     ThrottleManager.getMaxForPriority 2 = 60 ∧
     ThrottleManager.getMaxForPriority 3 = 30 ∧
     ThrottleManager.getMaxForPriority 4 = 10) ∧
    (∀ (tc : ThrottleCounter) (now : Nat), tc.windowEnd < now →
        (tc.increment now).2.windowEnd = now + 60 ∧
        ((tc.increment now).1 = true ↔ 0 < tc.maxPerWindow)) ∧
    (∀ (tc : ThrottleCounter) (now : Nat), ¬ tc.windowEnd < now →
        ((tc.increment now).1 = true ↔ tc.count < tc.maxPerWindow) ∧
        ((tc.increment now).1 = true → (tc.increment now).2.count = tc.count + 1)) ∧
    (∀ (uid prio : Int) (t0 tlast t' : Nat) (ts : List Nat) (M : Nat),
        ThrottleManager.getMaxForPriority prio = M → 0 < M →
        ts.length = M - 1 → (∀ t ∈ ts, t ≤ t0 + 60) → tlast ≤ t0 + 60 →
        t0 + 60 < t' →
        (ThrottleManager.run { counters := [] } uid prio (t0 :: ts ++ [tlast, t'])).1
          = List.replicate M true ++ [false, true]) := by
  refine ⟨⟨by decide, by decide, by decide, by decide⟩, ?_, ?_, ?_⟩
  · intro tc now h
    by_cases hM : tc.maxPerWindow ≤ 0 <;> simp [ThrottleCounter.increment, h, hM] <;> omega
  · intro tc now h
    by_cases hc : tc.maxPerWindow ≤ tc.count <;> simp [ThrottleCounter.increment, h, hc] <;> omega
  · intro uid prio t0 tlast t' ts M hM hM0 hlen hts htlast ht'
    have hnot1 : ¬ (t0 + 60 < t0) := by omega
    have hnotM : ¬ (M ≤ 0) := by omega
    have h1 : (ThrottleManager.mk []).allowAlert uid prio t0
        = (true, { counters := [(uid,
            { count := 1, windowEnd := t0 + 60, maxPerWindow := M })] }) := by
      simp [ThrottleManager.allowAlert, alistLookup, ThrottleCounter.increment,
        hnot1, hnotM, alistInsert, hM]
    have hmid := throttleRun_below_ceiling uid prio (t0 + 60) M ts
      { counters := [(uid, { count := 1, windowEnd := t0 + 60, maxPerWindow := M })] } 1
      (by simp [alistLookup]) hts (by omega)
    have hM' : 1 + ts.length = M := by omega
    have htail := throttleRun_at_ceiling uid prio (t0 + 60) M
      (({ counters := [(uid, { count := 1, windowEnd := t0 + 60, maxPerWindow := M })] } :
          ThrottleManager).run uid prio ts).2 tlast t'
      (by rw [hmid.2, hM']) htlast ht' hM0
    have hsplit : (t0 :: ts ++ [tlast, t']) = t0 :: (ts ++ [tlast, t']) := rfl
    rw [hsplit]
    simp only [ThrottleManager.run, h1]
    rw [throttleRun_append]
    simp only [hmid.1, htail]
    have : M = ts.length + 1 := by omega
    subst this
    simp [List.replicate_succ]

theorem throttle_ceiling_spec_witness :
    (ThrottleManager.run { counters := [] } 7 4 (100 :: [101, 102, 103, 104, 105, 106, 107, 108, 109] ++ [130, 161])).1
      = List.replicate 10 true ++ [false, true] :=
  throttle_ceiling_spec.2.2.2 7 4 100 130 161 [101, 102, 103, 104, 105, 106, 107, 108, 109] 10
    (by decide) (by decide) (by decide) (by decide) (by decide) (by decide)

/-- While shutdown is not signaled, the individual re-submission loop
appends exactly the prefix of the batch that fits in the remaining channel
capacity (each with `Enqueue`'s defaults applied) and drops the rest,
touching neither the retry channel nor the failed stat. -/
theorem enqueueAll_not_done (now : Nat) (pick : SelectPick) :
    ∀ (alerts : List Alert) (aq : AlertQueue), aq.ctxDone = false →
      (aq.enqueueAll alerts now pick).queue
          = aq.queue ++ (alerts.take (aq.queueSize - aq.queue.length)).map
              (fun a => a.withDefaults now) ∧
      (aq.enqueueAll alerts now pick).retryQueue = aq.retryQueue ∧
      (aq.enqueueAll alerts now pick).stats.failed = aq.stats.failed ∧
      (aq.enqueueAll alerts now pick).ctxDone = false := by
  intro alerts
  induction alerts with
  | nil => intro aq h; simp [AlertQueue.enqueueAll, h]
  | cons a rest ih =>
      intro aq h
      have hfold : aq.enqueueAll (a :: rest) now pick
          = AlertQueue.enqueueAll (aq.enqueue a now pick).2 rest now pick := by
        simp [AlertQueue.enqueueAll, List.foldl]
      by_cases hs : aq.queue.length < aq.queueSize
      · have hstep : (aq.enqueue a now pick).2
            = { aq with queue := aq.queue ++ [a.withDefaults now],
                        stats := aq.stats.updateCurrentSize 1 } := by
          simp [AlertQueue.enqueue, hs, h]
        have hrec := ih (aq.enqueue a now pick).2 (by rw [hstep]; exact h)
        rw [hfold]
        rw [hstep] at hrec ⊢
        have hk : aq.queueSize - aq.queue.length
            = (aq.queueSize - (aq.queue.length + 1)) + 1 := by omega
        refine ⟨?_, ?_, ?_, ?_⟩
        · rw [hrec.1]
          simp [hk, List.take_succ_cons]
        · rw [hrec.2.1]
        · rw [hrec.2.2.1]
          simp [QueueStats.updateCurrentSize]
        · exact hrec.2.2.2
      · have hstep : (aq.enqueue a now pick).2 = aq := by
          simp [AlertQueue.enqueue, hs, h]
        have hrec := ih aq h
        rw [hfold, hstep]
        have hk : aq.queueSize - aq.queue.length = 0 := by omega
        refine ⟨?_, ?_, ?_, ?_⟩
        · rw [hrec.1]
          simp [hk]
        · exact hrec.2.1
        · exact hrec.2.2.1
        · exact hrec.2.2.2

/-- C9: when the processor's batch delivery reports an error (shutdown not
being signaled), the failed stat grows exactly once and every alert of the
batch is re-submitted individually through `Enqueue`: the alerts that fit
in the channel's remaining capacity are appended to it in order, the
remainder is rejected as queue-full and lost, and the retry channel is not
involved. -/
theorem batch_error_fallback (aq : AlertQueue) (alerts : List Alert) (now : Nat)
    (pick : SelectPick) (h : aq.ctxDone = false) :
    (aq.processBatch alerts true now pick).stats.failed = aq.stats.failed + 1 ∧
    (aq.processBatch alerts true now pick).queue
      = aq.queue ++ (alerts.take (aq.queueSize - aq.queue.length)).map
          (fun a => a.withDefaults now) ∧
    (aq.processBatch alerts true now pick).retryQueue = aq.retryQueue := by
  have hall := enqueueAll_not_done now pick alerts
    { aq with stats := aq.stats.incrementFailed } (by simp [h])
  have hpb : aq.processBatch alerts true now pick
      = AlertQueue.enqueueAll { aq with stats := aq.stats.incrementFailed } alerts now pick := by
    simp [AlertQueue.processBatch]
  rw [hpb]
  refine ⟨?_, ?_, ?_⟩
  · rw [hall.2.2.1]
    simp [QueueStats.incrementFailed]
  · rw [hall.1]
  · rw [hall.2.1]

theorem batch_error_fallback_witness :
    ((newAlertQueue 1 2).processBatch [sampleAlert, sampleAlert, sampleAlert] true 5
        SelectPick.sendCase).queue = [sampleAlert, sampleAlert] := by
  have h := (batch_error_fallback (newAlertQueue 1 2) [sampleAlert, sampleAlert, sampleAlert]
    5 SelectPick.sendCase (by decide)).2.1
  rw [h]
  rfl

/-- Every alert of the batch is tallied exactly once as a success or an
error by the `ProcessBatch` loop. -/
theorem tgBatchLoop_counts (send : Alert → Option String) (now : Nat) :
    ∀ (alerts : List Alert) (re : RuleEngine) (s e : Nat),
      (tgBatchLoop re send now alerts s e).1 + (tgBatchLoop re send now alerts s e).2.1
        = s + e + alerts.length := by
  intro alerts
  induction alerts with
  | nil => intro re s e; simp [tgBatchLoop]
  | cons a rest ih =>
      intro re s e
      cases hp : (TelegramProcessor.processAlert re send a now).1.isErr
      · have := ih (TelegramProcessor.processAlert re send a now).2 (s + 1) e
        simp [tgBatchLoop, hp, this]
        omega
      · have := ih (TelegramProcessor.processAlert re send a now).2 s (e + 1)
        simp [tgBatchLoop, hp, this]
        omega

/-- C10: `TelegramProcessor.ProcessBatch` returns nil on an empty batch;
otherwise it processes every alert individually (successes and errors tally
to the batch length) and returns an error exactly when at least one alert
errored and none succeeded — in particular a batch with at least one
success returns nil, and on a nil return the queue-level batch fallback
re-submits nothing: the work queue and retry queue are unchanged. -/
theorem tg_processBatch_policy (re : RuleEngine) (send : Alert → Option String)
    (alerts : List Alert) (now : Nat) :
    (TelegramProcessor.processBatch re send [] now = (none, re)) ∧
    ((tgBatchLoop re send now alerts 0 0).1 + (tgBatchLoop re send now alerts 0 0).2.1
        = alerts.length) ∧
    (alerts ≠ [] →
        ((TelegramProcessor.processBatch re send alerts now).1 ≠ none ↔
          (0 < (tgBatchLoop re send now alerts 0 0).2.1 ∧
           (tgBatchLoop re send now alerts 0 0).1 = 0))) ∧
    (alerts ≠ [] → 0 < (tgBatchLoop re send now alerts 0 0).1 →
        (TelegramProcessor.processBatch re send alerts now).1 = none) ∧
    ((TelegramProcessor.processBatch re send alerts now).1 = none →
        ∀ (aq : AlertQueue) (pick : SelectPick),
          (aq.processBatch alerts false now pick).queue = aq.queue ∧
          (aq.processBatch alerts false now pick).retryQueue = aq.retryQueue) := by
  have hsum := tgBatchLoop_counts send now alerts re 0 0
  refine ⟨by simp [TelegramProcessor.processBatch], by simpa using hsum, ?_, ?_, ?_⟩
  · intro hne
    have hE : alerts.isEmpty = false := by
      cases alerts with
      | nil => exact absurd rfl hne
      | cons a t => rfl
    by_cases hcond : 0 < (tgBatchLoop re send now alerts 0 0).2.1 ∧
        (tgBatchLoop re send now alerts 0 0).1 = 0
    · simp [TelegramProcessor.processBatch, hE, hcond]
    · simp [TelegramProcessor.processBatch, hE, hcond]
  · intro hne hs
    have hE : alerts.isEmpty = false := by
      cases alerts with
      | nil => exact absurd rfl hne
      | cons a t => rfl
    have hcond : ¬ (0 < (tgBatchLoop re send now alerts 0 0).2.1 ∧
        (tgBatchLoop re send now alerts 0 0).1 = 0) := by omega
    simp [TelegramProcessor.processBatch, hE, hcond]
  · intro _ aq pick
    constructor <;> simp [AlertQueue.processBatch]

theorem tg_processBatch_policy_witness :
    (TelegramProcessor.processBatch (newRuleEngine 30) mixedSend
        [sampleAlert, failAlert] 100).1 = none := by
  have h := (tg_processBatch_policy (newRuleEngine 30) mixedSend
    [sampleAlert, failAlert] 100).2.2.2.1 (by decide) (by decide)
  exact h

/-- Go `TelegramProcessor.ProcessAlert` leaves the rule-engine state produced
by the engine run, whatever the send outcome. -/
theorem tgProcessAlert_state (re : RuleEngine) (send : Alert → Option String)
    (a : Alert) (t : Nat) :
    (TelegramProcessor.processAlert re send a t).2 = (re.processAlert a t).2 := by
  unfold TelegramProcessor.processAlert
  cases hp : (re.processAlert a t).1.1 <;> cases hsend : send a <;> simp [hp, hsend]

/-- C6 counterexample: the first attempt on `sampleAlert` at time 100 is
allowed by the rule engine (its dedup key is recorded) and fails only in
the send step; the retried attempt two seconds later, although its send
step would succeed, is re-subjected to the rule engine and filtered as a
duplicate of its own first attempt — the retry does not re-run only the
send step. -/
theorem retry_rule_reapplication_cex :
    sendOk retriedSample = none ∧
    (TelegramProcessor.processAlert (newRuleEngine 30) sendFail sampleAlert 100).1
      = ProcOutcome.errored "telegram send failed" ∧
    (TelegramProcessor.processAlert
        (TelegramProcessor.processAlert (newRuleEngine 30) sendFail sampleAlert 100).2
        sendOk retriedSample 102).1
      = ProcOutcome.filtered "duplicate alert filtered" := by
  decide

/-- C6 amended: the rule engine is applied on every processing attempt,
retries included: after a first attempt that the engine allowed (recording
the dedup key) and that failed in the send step at time `t0`, a retried
attempt for the same owner and message at any `t1` within the dedup window
is rejected by the deduplication stage as a duplicate, whatever the send
outcome of the retry. -/
theorem retry_reapplies_rule_engine (re : RuleEngine)
    (send1 send2 : Alert → Option String) (a a' : Alert) (t0 t1 : Nat) (e : String)
    (h1 : (TelegramProcessor.processAlert re send1 a t0).1 = ProcOutcome.errored e)
    (hu : a'.userID = a.userID) (hm : a'.payload.message? = a.payload.message?)
    (hw : t1 - t0 < re.deduplication.window) :
    (TelegramProcessor.processAlert
        (TelegramProcessor.processAlert re send1 a t0).2 send2 a' t1).1
      = ProcOutcome.filtered "duplicate alert filtered" := by
  have hallp : (re.processAlert a t0).1.1 = true := by
    by_contra hn
    have hf : (re.processAlert a t0).1.1 = false := by
      revert hn; cases (re.processAlert a t0).1.1 <;> simp
    simp [TelegramProcessor.processAlert, hf] at h1
  have hdup : (re.deduplication.isDuplicate a t0).1 = false := by
    by_contra hn
    have hd : (re.deduplication.isDuplicate a t0).1 = true := by
      revert hn; cases (re.deduplication.isDuplicate a t0).1 <;> simp
    simp [RuleEngine.processAlert, hd] at hallp
  have hre2 : (re.processAlert a t0).2.deduplication
      = (re.deduplication.isDuplicate a t0).2 := by
    cases ht : (re.throttle.allowAlert a.userID a.priority t0).1 <;>
      simp [RuleEngine.processAlert, hdup, ht]
  have hdup2 : ((re.deduplication.isDuplicate a t0).2.isDuplicate a' t1).1 = true := by
    rw [isDuplicate_false_cache re.deduplication a t0 hdup]
    simp [DeduplicationCache.isDuplicate, generateKey_congr a a' hu hm,
      alistLookup_insert_self, hw]
  rw [tgProcessAlert_state re send1 a t0]
  set X := (re.processAlert a t0).2 with hX
  simp [TelegramProcessor.processAlert, RuleEngine.processAlert, hre2, hdup2]

theorem retry_reapplies_rule_engine_witness :
    (TelegramProcessor.processAlert
        (TelegramProcessor.processAlert (newRuleEngine 30) sendFail sampleAlert 100).2
        sendOk retriedSample 102).1
      = ProcOutcome.filtered "duplicate alert filtered" :=
  retry_reapplies_rule_engine (newRuleEngine 30) sendFail sendOk sampleAlert retriedSample
    100 102 "telegram send failed" (by decide) (by decide) (by decide) (by decide)
